import Mathlib

/-!
# forgerock-go: login flow of `forgerock.go`

A shallow embedding of `src/forgerock/forgerock.go`.

* Go structs are Lean structures with the same field names; slices are lists.
* The in-place mutation done by `fillCredentials` (the write goes through the
  `Input` slice of the ranged copy, so it reaches the receiver) is explicit
  state passing: the function returns the receiver as it is after the call.
* A Go run-time panic (index out of range) is an explicit outcome.
* The HTTP session (`resty`), the HTML extractor (`soup`) and `fmt.Sprintf`
  are libraries outside the repository; they are parameters (`Env`).
  Every call of `Get`/`Post` appends the request to a trace.
-/

namespace forgerock

/-! ## Data model (forgerock.go, lines 11-52) -/

/-- ForgeRock client: `type Client struct`. -/
structure Client where
  baseUrl : String
  authUrl : String
deriving DecidableEq, Repr

/-- Credentials used to login: `type Credentials struct`. -/
structure Credentials where
  Username : String
  Password : String
deriving DecidableEq, Repr

/-- Element type of the anonymous `Output` and `Input` slices of `authData`. -/
structure NameValue where
  Name : String
  Value : String
deriving DecidableEq, Repr

/-- Element type of the anonymous `Callbacks` slice of `authData`. The Go field
`Type` is `Type_` here (`Type` is a Lean keyword); `ID` is the JSON `_id`. -/
structure Callback where
  Type_ : String
  Output : List NameValue
  Input : List NameValue
  ID : Int
deriving DecidableEq, Repr

/-- Request and response data for "/json/realms/root/authenticate". -/
structure authData where
  AuthID : String
  Callbacks : List Callback
deriving DecidableEq, Repr

/-- Response data for a successful authentication. -/
structure loginResponse where
  TokenID : String
  SuccessURL : String
  Realm : String
deriving DecidableEq, Repr

/-- Response embedded in a html form used for the SAML exchange. -/
structure ssoRedirectData where
  action : String
  samlResponse : String
  relayState : String
deriving DecidableEq, Repr

/-! ## HTTP collaborator (resty) -/

/-- HTTP method of a request: `Get` or `Post` on `restyClient.R()`. -/
inductive Method where
  | GET
  | POST
deriving DecidableEq, Repr

/-- What was attached to a request: nothing, `SetBody(authData)` or
`SetFormData(map)`. A Go map is a list of key/value pairs with distinct keys. -/
inductive Body where
  | empty
  | json (a : authData)
  | form (kv : List (String × String))
deriving DecidableEq, Repr

/-- One call of `Get`/`Post`: method, URL, `SetHeaders` map, body. -/
structure Request where
  method : Method
  url : String
  headers : List (String × String)
  body : Body
deriving DecidableEq, Repr

/-- What the code reads from a `*resty.Response`: `StatusCode()` and `String()`. -/
structure Response where
  status : Nat
  body : String
deriving DecidableEq, Repr

/-- The HTML extractor `soup`, as far as `parseSsoRedirectData` uses it.
`none` stands for a call that does not return (a panic inside the library). -/
structure Soup where
  Root : Type
  HTMLParse : String → Root
  Find : Root → List String → Option Root
  Attrs : Root → Option (List (String × String))

/-- The libraries the code runs against.
* `send hist req`: the outcome of issuing `req` on a session that has issued
  `hist` before: `.error e` when `Get`/`Post` returns `err != nil` with
  `err.Error() = e`, otherwise the response.
* `unmarshalAuthData resp`, `unmarshalLoginResponse resp`: the value the
  `SetResult` target holds after a call that returned `resp`.
* `Sprintf format a`: `fmt.Sprintf(format, a)` for `a : *authData`. -/
structure Env where
  send : List Request → Request → Except String Response
  unmarshalAuthData : Response → authData
  unmarshalLoginResponse : Response → loginResponse
  Sprintf : String → authData → String
  soup : Soup

/-- A `*resty.Client`: the session, identified with the requests issued on it
so far (its cookies are a function of them). `resty.New()` is the session
with no request. -/
structure Session where
  history : List Request
deriving DecidableEq, Repr

/-- A Go call either returns a value or panics. -/
inductive Outcome (α : Type) where
  | ret (a : α)
  | panic (msg : String)
deriving DecidableEq, Repr

/-! ## `New` (lines 55-64) -/

/-- Creates a new ForgeRock client with the given base url. `.error` is the
pair `(nil, err)`, `.ok fr` the pair `(fr, nil)`. -/
def New (baseUrl : String) : Except String Client :=
  if baseUrl = "" then
    .error "missing ForgeRock base url"
  else
    .ok (Client.mk baseUrl (baseUrl ++ "/json/realms/root/authenticate"))

/-! ## `createForgeRockHeaders` (lines 135-140) -/

/-- Creates headers for requests to ForgeRock. -/
def createForgeRockHeaders : List (String × String) :=
  [("Accept", "application/json"),
   ("Accept-API-Version", "protocol=1.0,resource=2.1")]

/-! ## `fillCredentials` (lines 143-169) -/

/-- The assignment `callback.Input[0].Value = v`: `none` is the run-time panic
"index out of range [0] with length 0". -/
def setInput0Value (input : List NameValue) (v : String) : Option (List NameValue) :=
  match input with
  | [] => none
  | x :: xs => some (NameValue.mk x.Name v :: xs)

/-- How the `for ... range authData.Callbacks` loop ends. -/
inductive LoopExit where
  | finished (usernameFilled passwordFilled : Bool)
  | returned (err : String)
  | panicked
deriving DecidableEq, Repr

/-- The loop of `fillCredentials` from the current callback on, with the
current values of the two flags. Returns the callbacks as the loop leaves
them, and how it ended. -/
def fillLoop (credentials : Credentials) :
    List Callback → Bool → Bool → List Callback × LoopExit
  | [], usernameFilled, passwordFilled => ([], .finished usernameFilled passwordFilled)
  | callback :: rest, usernameFilled, passwordFilled =>
    if callback.Type_ = "NameCallback" then
      match setInput0Value callback.Input credentials.Username with
      | none => (callback :: rest, .panicked)
      | some input =>
        let r := fillLoop credentials rest true passwordFilled
        (Callback.mk callback.Type_ callback.Output input callback.ID :: r.1, r.2)
    else if callback.Type_ = "PasswordCallback" then
      match setInput0Value callback.Input credentials.Password with
      | none => (callback :: rest, .panicked)
      | some input =>
        let r := fillLoop credentials rest usernameFilled true
        (Callback.mk callback.Type_ callback.Output input callback.ID :: r.1, r.2)
    else
      (callback :: rest, .returned ("unexpected auth data callback type: " ++ callback.Type_))

/-- Adds the credentials to the authentication template. The first component
is the receiver after the call, the second the returned `err` (`none` is
`nil`) or the panic. -/
def fillCredentials (Sprintf : String → authData → String) (a : authData)
    (credentials : Credentials) : authData × Outcome (Option String) :=
  let r := fillLoop credentials a.Callbacks false false
  let a1 := authData.mk a.AuthID r.1
  match r.2 with
  | .panicked => (a1, .panic "runtime error: index out of range [0] with length 0")
  | .returned err => (a1, .ret (some err))
  | .finished usernameFilled passwordFilled =>
    if !usernameFilled then
      (a1, .ret (some (Sprintf
        "failed to find NameCallback to fill in username in auth data: %+v" a1)))
    else if !passwordFilled then
      (a1, .ret (some (Sprintf
        "failed to find PasswordCallback to fill in password in auth data: %+v" a1)))
    else
      (a1, .ret none)

/-! ## `loginToForgeRock` (lines 92-132) -/

/-- The initial `Get(fr.baseUrl)`: no headers, no body. -/
def initialPageRequest (fr : Client) : Request :=
  Request.mk .GET fr.baseUrl [] .empty

/-- The first `Post(fr.authUrl)`: the ForgeRock headers, no body. -/
def initialAuthRequest (fr : Client) : Request :=
  Request.mk .POST fr.authUrl createForgeRockHeaders .empty

/-- The second `Post(fr.authUrl)`: the ForgeRock headers, `SetBody(authData)`. -/
def loginRequest (fr : Client) (a : authData) : Request :=
  Request.mk .POST fr.authUrl createForgeRockHeaders (.json a)

/-- Handles the login to ForgeRock AM. Returns the session after the call and
the returned `err` (`none` is `nil`) or the panic. -/
def loginToForgeRock (env : Env) (fr : Client) (restyClient : Session)
    (credentials : Credentials) : Session × Outcome (Option String) :=
  let h0 := restyClient.history
  let h1 := h0 ++ [initialPageRequest fr]
  match env.send h0 (initialPageRequest fr) with
  | .error e =>
    (Session.mk h1,
      .ret (some ("failed to get initial login page \"" ++ fr.baseUrl ++ "\": " ++ e)))
  | .ok _ =>
    let h2 := h1 ++ [initialAuthRequest fr]
    match env.send h1 (initialAuthRequest fr) with
    | .error e =>
      (Session.mk h2,
        .ret (some ("failed to get initial auth data \"" ++ fr.authUrl ++ "\": " ++ e)))
    | .ok resp1 =>
      let filled := fillCredentials env.Sprintf (env.unmarshalAuthData resp1) credentials
      match filled.2 with
      | .panic msg => (Session.mk h2, .panic msg)
      | .ret (some err) => (Session.mk h2, .ret (some err))
      | .ret none =>
        let h3 := h2 ++ [loginRequest fr filled.1]
        match env.send h2 (loginRequest fr filled.1) with
        | .error e => (Session.mk h3, .ret (some ("failed to login: " ++ e)))
        | .ok resp =>
          if resp.status ≥ 400 then
            (Session.mk h3, .ret (some ("error response from login: " ++ resp.body)))
          else if (env.unmarshalLoginResponse resp).TokenID = "" then
            (Session.mk h3,
              .ret (some ("failed to login, tokenId is empty: " ++ resp.body)))
          else
            (Session.mk h3, .ret none)

/-! ## `parseSsoRedirectData`, `toFormData` (lines 203-223) -/

/-- Go map indexing `m[key]` on a `map[string]string`: the zero value `""`
when the key is absent (also on a nil map). -/
def mapIndex (m : List (String × String)) (key : String) : String :=
  match m.lookup key with
  | some v => v
  | none => ""

/-- Extracts the `ssoRedirectData` out from the html form in the response
body. `none`: one of the library calls panicked. -/
def parseSsoRedirectData (soup : Soup) (body : String) : Option ssoRedirectData :=
  let html := soup.HTMLParse body
  match soup.Find html ["form"] with
  | none => none
  | some form =>
    match soup.Attrs form with
    | none => none
    | some formAttrs =>
      let action := mapIndex formAttrs "action"
      match soup.Find form ["input", "name", "SAMLResponse"] with
      | none => none
      | some samlInput =>
        match soup.Attrs samlInput with
        | none => none
        | some samlAttrs =>
          let samlResponse := mapIndex samlAttrs "value"
          match soup.Find form ["input", "name", "RelayState"] with
          | none => none
          | some relayInput =>
            match soup.Attrs relayInput with
            | none => none
            | some relayAttrs =>
              let relayState := mapIndex relayAttrs "value"
              some (ssoRedirectData.mk action samlResponse relayState)

/-- Creates form data parameters for the SAML exchange request to ForgeRock. -/
def ssoRedirectData.toFormData (data : ssoRedirectData) : List (String × String) :=
  [("SAMLResponse", data.samlResponse),
   ("RelayState", data.relayState)]

/-! ## `loginToApp` (lines 172-200) -/

/-- Whether `p` is an initial segment of `s`: `strings.HasPrefix` on characters. -/
def startsWith : List Char → List Char → Bool
  | _, [] => true
  | [], _ :: _ => false
  | c :: s, d :: p => c == d && startsWith s p

/-- Whether `sub` occurs in `s`, on characters. -/
def containsChars : List Char → List Char → Bool
  | [], sub => startsWith [] sub
  | c :: s, sub => startsWith (c :: s) sub || containsChars s sub

/-- The library call `strings.Contains(s, substr)`. -/
def stringsContains (s substr : String) : Bool :=
  containsChars s.data substr.data

/-- The `Get(appUrl)` of `loginToApp`: no headers, no body. -/
def appRequest (appUrl : String) : Request :=
  Request.mk .GET appUrl [] .empty

/-- The `Post(ssoRedirectData.action)` of `loginToApp`, with `SetFormData`. -/
def samlRequest (data : ssoRedirectData) : Request :=
  Request.mk .POST data.action [] (.form data.toFormData)

/-- Logs in to a ForgeRock login protected application. Returns the session
after the call and the returned `err` (`none` is `nil`) or the panic. The
receiver `frClient` is not used by the body. -/
def loginToApp (env : Env) (restyClient : Session) (appUrl : String) :
    Session × Outcome (Option String) :=
  let h0 := restyClient.history
  let h1 := h0 ++ [appRequest appUrl]
  match env.send h0 (appRequest appUrl) with
  | .error e =>
    (Session.mk h1,
      .ret (some ("failed to call application url \"" ++ appUrl ++ "\": " ++ e)))
  | .ok resp =>
    if resp.status ≥ 400 then
      (Session.mk h1,
        .ret (some ("error response from application url \"" ++ appUrl ++ "\": "
          ++ resp.body)))
    else
      let respBody := resp.body
      if !stringsContains respBody "SAMLResponse" then
        (Session.mk h1,
          .ret (some ("expected response to contain SAMLResponse form: " ++ respBody)))
      else
        match parseSsoRedirectData env.soup respBody with
        | none => (Session.mk h1, .panic "runtime error in the html extractor")
        | some data =>
          let h2 := h1 ++ [samlRequest data]
          match env.send h1 (samlRequest data) with
          | .error e =>
            (Session.mk h2, .ret (some ("failed to post saml response: " ++ e)))
          | .ok resp2 =>
            if resp2.status ≥ 400 then
              (Session.mk h2,
                .ret (some ("error response from posting saml response: " ++ resp2.body)))
            else
              (Session.mk h2, .ret none)

/-! ## `Login` (lines 71-89) -/

/-- A run of `Login`: the HTTP requests it issued, in order, and what it
returned: the pair `(restyClient, err)` (`none` is `nil`), or a panic. -/
structure LoginRun where
  trace : List Request
  result : Outcome (Option Session × Option String)

/-- Logs in to the ForgeRock Access Management and the application. -/
def Login (env : Env) (fr : Client) (appUrl : String) (credentials : Credentials) :
    LoginRun :=
  if credentials.Username = "" || credentials.Password = "" then
    LoginRun.mk [] (.ret (none, some "missing username or password for ForgeRock login"))
  else
    let restyClient := Session.mk []
    let r1 := loginToForgeRock env fr restyClient credentials
    match r1.2 with
    | .panic msg => LoginRun.mk r1.1.history (.panic msg)
    | .ret (some err) => LoginRun.mk r1.1.history (.ret (none, some err))
    | .ret none =>
      let r2 := loginToApp env r1.1 appUrl
      match r2.2 with
      | .panic msg => LoginRun.mk r2.1.history (.panic msg)
      | .ret (some err) => LoginRun.mk r2.1.history (.ret (none, some err))
      | .ret none => LoginRun.mk r2.1.history (.ret (some r2.1, none))

/-! ## A scripted backend, for concrete runs -/

/-- Nodes of the one page the scripted extractor knows. -/
inductive PageNode where
  | document
  | form
  | input (name : String)
  | notFound
deriving DecidableEq, Repr

/-- An extractor that reads every body as a page with one form: the form has
the attribute `action`, and inputs named `SAMLResponse` and `RelayState` with
a `value` attribute. Any other element is not found, and reading the
attributes of an element that was not found does not return. -/
def pageSoup (page : ssoRedirectData) : Soup :=
  Soup.mk PageNode (fun _ => .document)
    (fun r args =>
      match r, args with
      | .document, ["form"] => some .form
      | .form, ["input", "name", n] =>
        if n = "SAMLResponse" ∨ n = "RelayState" then some (.input n) else some .notFound
      | _, _ => some .notFound)
    (fun r =>
      match r with
      | .form => some [("method", "post"), ("action", page.action)]
      | .input n =>
        if n = "SAMLResponse" then
          some [("type", "hidden"), ("name", n), ("value", page.samlResponse)]
        else
          some [("type", "hidden"), ("name", n), ("value", page.relayState)]
      | _ => none)

/-- A backend that answers the n-th request of a session with the n-th entry
of `script` (a transport error once the script is used up), decodes the body
`challenge` to `challenge` and the body `token` to a login response with a
token, and reads every page with `pageSoup page`. -/
def scriptedEnv (script : List (Except String Response)) (challenge : authData)
    (page : ssoRedirectData) : Env :=
  Env.mk
    (fun hist _ => script.getD hist.length (.error "connection refused"))
    (fun resp => if resp.body = "challenge" then challenge else authData.mk "" [])
    (fun resp =>
      if resp.body = "token" then loginResponse.mk "AQIC5wM2LY4Sfcx" "/console" "/"
      else loginResponse.mk "" "" "")
    (fun format a => format ++ " " ++ a.AuthID)
    (pageSoup page)

/-- The client `New "https://idp.example.com"` returns. -/
def demoClient : Client :=
  Client.mk "https://idp.example.com" "https://idp.example.com/json/realms/root/authenticate"

/-- Non-empty credentials. -/
def demoCredentials : Credentials :=
  Credentials.mk "alice" "s3cret"

/-- The usual challenge: a NameCallback and a PasswordCallback, one input each. -/
def demoChallenge : authData :=
  authData.mk "eyJ0eXAiOiJKV1Qi"
    [Callback.mk "NameCallback" [NameValue.mk "prompt" "User Name"]
       [NameValue.mk "IDToken1" ""] 0,
     Callback.mk "PasswordCallback" [NameValue.mk "prompt" "Password"]
       [NameValue.mk "IDToken2" ""] 1]

/-- The challenge `demoChallenge` after `fillCredentials` with `demoCredentials`. -/
def demoFilled : authData :=
  authData.mk "eyJ0eXAiOiJKV1Qi"
    [Callback.mk "NameCallback" [NameValue.mk "prompt" "User Name"]
       [NameValue.mk "IDToken1" "alice"] 0,
     Callback.mk "PasswordCallback" [NameValue.mk "prompt" "Password"]
       [NameValue.mk "IDToken2" "s3cret"] 1]

/-- A SAML form with all three fields. -/
def demoPage : ssoRedirectData :=
  ssoRedirectData.mk "https://app.example.com/saml/acs" "PHNhbWxwOlJlc3BvbnNl" "relay-1"

/-- Body of the application entry page. -/
def demoPageBody : String :=
  "<form method=post action=acs><input name=SAMLResponse><input name=RelayState></form>"

/-- The answers of a backend on which a login goes through. -/
def demoScript : List (Except String Response) :=
  [.ok (Response.mk 200 "<html>login</html>"),
   .ok (Response.mk 200 "challenge"),
   .ok (Response.mk 200 "token"),
   .ok (Response.mk 200 demoPageBody),
   .ok (Response.mk 200 "<html>welcome</html>")]

/-- The backend on which a login goes through. -/
def demoEnv : Env :=
  scriptedEnv demoScript demoChallenge demoPage

/-- The answers of a backend that rejects the resubmitted challenge with 401. -/
def rejectingScript : List (Except String Response) :=
  [.ok (Response.mk 200 "<html>login</html>"),
   .ok (Response.mk 200 "challenge"),
   .ok (Response.mk 401 "unauthorized")]

/-- The backend that rejects the resubmitted challenge with 401. -/
def rejectingEnv : Env :=
  scriptedEnv rejectingScript demoChallenge demoPage

/-- A SAML form whose `SAMLResponse` input has an empty value. -/
def emptySamlPage : ssoRedirectData :=
  ssoRedirectData.mk "https://app.example.com/saml/acs" "" "relay-1"

/-- The answers of an application whose entry page and assertion consumer
both answer 200. -/
def appScript : List (Except String Response) :=
  [.ok (Response.mk 200 demoPageBody),
   .ok (Response.mk 200 "<html>welcome</html>")]

/-- An application whose SAML form carries an empty `SAMLResponse`. -/
def emptySamlEnv : Env :=
  scriptedEnv appScript demoChallenge emptySamlPage

/-- A SAML form whose `action` is empty. -/
def emptyActionPage : ssoRedirectData :=
  ssoRedirectData.mk "" "PHNhbWxwOlJlc3BvbnNl" "relay-1"

/-- An application whose SAML form carries an empty `action`, behind an HTTP
client that refuses a request to the empty URL with an error and sends
nothing. -/
def emptyActionEnv : Env :=
  Env.mk
    (fun hist req =>
      if req.url = "" then .error "unsupported protocol scheme"
      else appScript.getD hist.length (.error "connection refused"))
    (fun _ => authData.mk "" [])
    (fun _ => loginResponse.mk "" "" "")
    (fun format a => format ++ " " ++ a.AuthID)
    (pageSoup emptyActionPage)

/-- An application whose SAML form carries all three fields. -/
def appEnv : Env :=
  scriptedEnv appScript demoChallenge demoPage

/-- The answers of a backend whose base page answers 500 and whose
authentication endpoint works. -/
def brokenPageScript : List (Except String Response) :=
  [.ok (Response.mk 500 "internal server error"),
   .ok (Response.mk 200 "challenge"),
   .ok (Response.mk 200 "token")]

/-- The backend whose base page answers 500. -/
def brokenPageEnv : Env :=
  scriptedEnv brokenPageScript demoChallenge demoPage

/-- The backend that cannot be reached at all. -/
def unreachableEnv : Env :=
  scriptedEnv [] demoChallenge demoPage

/-- A challenge whose NameCallback has an empty input list. -/
def noInputChallenge : authData :=
  authData.mk "eyJ0eXAiOiJKV1Qi"
    [Callback.mk "NameCallback" [NameValue.mk "prompt" "User Name"] [] 0]

/-- A challenge whose NameCallback has an empty input list, followed by a
callback of an unrecognized type. -/
def noInputThenChoiceChallenge : authData :=
  authData.mk "eyJ0eXAiOiJKV1Qi"
    [Callback.mk "NameCallback" [NameValue.mk "prompt" "User Name"] [] 0,
     Callback.mk "ChoiceCallback" [NameValue.mk "prompt" "Second factor"]
       [NameValue.mk "IDToken2" "0"] 1]

/-- A challenge without NameCallback whose PasswordCallback has an empty
input list. -/
def passwordOnlyNoInputChallenge : authData :=
  authData.mk "eyJ0eXAiOiJKV1Qi"
    [Callback.mk "PasswordCallback" [NameValue.mk "prompt" "Password"] [] 0]

/-- The answers of an authentication endpoint that issues a challenge. -/
def challengeScript : List (Except String Response) :=
  [.ok (Response.mk 200 "<html>login</html>"),
   .ok (Response.mk 200 "challenge")]

/-! ## Facts about `fillCredentials` -/

/-- What one successful pass of the loop body does to a callback. -/
def FilledFrom (credentials : Credentials) (cb cb1 : Callback) : Prop :=
  cb1.Type_ = cb.Type_ ∧ cb1.Output = cb.Output ∧ cb1.ID = cb.ID ∧
  ((cb.Type_ = "NameCallback" ∧
      setInput0Value cb.Input credentials.Username = some cb1.Input) ∨
   (cb.Type_ = "PasswordCallback" ∧
      setInput0Value cb.Input credentials.Password = some cb1.Input))

theorem setInput0Value_some {input input1 : List NameValue} {v : String}
    (h : setInput0Value input v = some input1) :
    input1.length = input.length ∧
    input1.map NameValue.Name = input.map NameValue.Name ∧
    input1.tail = input.tail ∧
    input1.head?.map NameValue.Value = some v := by
  cases input with
  | nil => simp [setInput0Value] at h
  | cons x xs =>
    simp only [setInput0Value, Option.some.injEq] at h
    subst h
    simp

theorem fillLoop_finished (credentials : Credentials) :
    ∀ (cbs : List Callback) (u p : Bool) (cbs1 : List Callback) (u1 p1 : Bool),
      fillLoop credentials cbs u p = (cbs1, .finished u1 p1) →
      List.Forall₂ (FilledFrom credentials) cbs cbs1 := by
  intro cbs
  induction cbs with
  | nil =>
    intro u p cbs1 u1 p1 h
    simp only [fillLoop, Prod.mk.injEq] at h
    rw [← h.1]
    exact List.Forall₂.nil
  | cons cb rest ih =>
    intro u p cbs1 u1 p1 h
    unfold fillLoop at h
    split_ifs at h with hn hpw
    · cases hi : setInput0Value cb.Input credentials.Username with
      | none => simp [hi] at h
      | some input =>
        simp only [hi, Prod.mk.injEq] at h
        obtain ⟨h1, h2⟩ := h
        rw [← h1]
        refine List.Forall₂.cons ⟨rfl, rfl, rfl, Or.inl ⟨hn, hi⟩⟩ ?_
        exact ih true p _ u1 p1 (Prod.ext rfl h2)
    · cases hi : setInput0Value cb.Input credentials.Password with
      | none => simp [hi] at h
      | some input =>
        simp only [hi, Prod.mk.injEq] at h
        obtain ⟨h1, h2⟩ := h
        rw [← h1]
        refine List.Forall₂.cons ⟨rfl, rfl, rfl, Or.inr ⟨hpw, hi⟩⟩ ?_
        exact ih u true _ u1 p1 (Prod.ext rfl h2)
    · simp at h

theorem fillCredentials_success {Sprintf : String → authData → String} {a a1 : authData}
    {credentials : Credentials}
    (h : fillCredentials Sprintf a credentials = (a1, .ret none)) :
    a1.AuthID = a.AuthID ∧ List.Forall₂ (FilledFrom credentials) a.Callbacks a1.Callbacks := by
  unfold fillCredentials at h
  cases hl : fillLoop credentials a.Callbacks false false with
  | mk cbs1 e =>
    simp only [hl] at h
    cases e with
    | panicked => simp at h
    | returned err => simp at h
    | finished u1 p1 =>
      have hf := fillLoop_finished credentials _ _ _ _ _ _ hl
      simp only at h
      split_ifs at h
      all_goals
        simp only [Prod.mk.injEq, Outcome.ret.injEq, reduceCtorEq, and_false] at h
      rw [← h.1]
      exact ⟨rfl, hf⟩

theorem forall₂_getElem? {α β : Type} {R : α → β → Prop} {l1 : List α} {l2 : List β}
    (h : List.Forall₂ R l1 l2) :
    ∀ (i : Nat) (a : α), l1[i]? = some a → ∃ b, l2[i]? = some b ∧ R a b := by
  induction h with
  | nil => intro i a hi; simp at hi
  | cons hab _ ih =>
    intro i a hi
    cases i with
    | zero =>
      simp only [List.getElem?_cons_zero, Option.some.injEq] at hi
      subst hi
      exact ⟨_, by simp, hab⟩
    | succ j =>
      simp only [List.getElem?_cons_succ] at hi
      obtain ⟨b, hb, hr⟩ := ih j a hi
      exact ⟨b, by simpa using hb, hr⟩

/-- What `loginToForgeRock` does once the first two requests were answered
and `fillCredentials` returned `nil`. -/
theorem loginToForgeRock_after_fill (env : Env) (fr : Client) (s : Session)
    (credentials : Credentials) (r0 r1 : Response) (c1 : authData)
    (h0 : env.send s.history (initialPageRequest fr) = .ok r0)
    (h1 : env.send (s.history ++ [initialPageRequest fr]) (initialAuthRequest fr) = .ok r1)
    (hf : fillCredentials env.Sprintf (env.unmarshalAuthData r1) credentials
      = (c1, .ret none)) :
    loginToForgeRock env fr s credentials =
      (Session.mk (s.history ++ [initialPageRequest fr] ++ [initialAuthRequest fr]
          ++ [loginRequest fr c1]),
        match env.send (s.history ++ [initialPageRequest fr] ++ [initialAuthRequest fr])
            (loginRequest fr c1) with
        | .error e => .ret (some ("failed to login: " ++ e))
        | .ok resp =>
          if resp.status ≥ 400 then
            .ret (some ("error response from login: " ++ resp.body))
          else if (env.unmarshalLoginResponse resp).TokenID = "" then
            .ret (some ("failed to login, tokenId is empty: " ++ resp.body))
          else .ret none) := by
  unfold loginToForgeRock
  simp only [h0, h1, hf]
  cases env.send (s.history ++ [initialPageRequest fr] ++ [initialAuthRequest fr])
      (loginRequest fr c1) with
  | error e => rfl
  | ok resp =>
    simp only
    split_ifs <;> rfl

/-- What `loginToApp` does once the entry page was fetched, carried the
marker, and the extractor returned `data`. -/
theorem loginToApp_after_parse (env : Env) (s : Session) (appUrl : String)
    (resp : Response) (data : ssoRedirectData)
    (h0 : env.send s.history (appRequest appUrl) = .ok resp)
    (hs : resp.status < 400)
    (hm : stringsContains resp.body "SAMLResponse" = true)
    (hd : parseSsoRedirectData env.soup resp.body = some data) :
    loginToApp env s appUrl =
      (Session.mk (s.history ++ [appRequest appUrl] ++ [samlRequest data]),
        match env.send (s.history ++ [appRequest appUrl]) (samlRequest data) with
        | .error e => .ret (some ("failed to post saml response: " ++ e))
        | .ok resp2 =>
          if resp2.status ≥ 400 then
            .ret (some ("error response from posting saml response: " ++ resp2.body))
          else .ret none) := by
  unfold loginToApp
  have hs1 : ¬ resp.status ≥ 400 := Nat.not_le.mpr hs
  simp only [h0, hs1, if_false, hm, Bool.not_true, Bool.false_eq_true, hd]
  cases env.send (s.history ++ [appRequest appUrl]) (samlRequest data) with
  | error e => rfl
  | ok resp2 =>
    simp only
    split_ifs <;> rfl

/-- A challenge of two callbacks, one NameCallback and one PasswordCallback in
either order, each with an input slot, is filled without error. -/
theorem fillCredentials_two_callbacks (Sprintf : String → authData → String)
    (a : authData) (credentials : Credentials) (cbA cbB : Callback)
    (hcb : a.Callbacks = [cbA, cbB])
    (ht : (cbA.Type_ = "NameCallback" ∧ cbB.Type_ = "PasswordCallback") ∨
      (cbA.Type_ = "PasswordCallback" ∧ cbB.Type_ = "NameCallback"))
    (hA : cbA.Input ≠ []) (hB : cbB.Input ≠ []) :
    (fillCredentials Sprintf a credentials).2 = .ret none := by
  obtain ⟨x, xs, hx⟩ := List.exists_cons_of_ne_nil hA
  obtain ⟨y, ys, hy⟩ := List.exists_cons_of_ne_nil hB
  rcases ht with ⟨h1, h2⟩ | ⟨h1, h2⟩ <;>
    simp [fillCredentials, fillLoop, hcb, h1, h2, hx, hy, setInput0Value]

/-- What `loginToForgeRock` does once the first two requests were answered
and `fillCredentials` did not return `nil`: it ends with the same error or
panic, and the two requests are all it has issued. -/
theorem loginToForgeRock_fill_fails (env : Env) (fr : Client) (s : Session)
    (credentials : Credentials) (r0 r1 : Response) (o : Outcome (Option String))
    (h0 : env.send s.history (initialPageRequest fr) = .ok r0)
    (h1 : env.send (s.history ++ [initialPageRequest fr]) (initialAuthRequest fr) = .ok r1)
    (hf : (fillCredentials env.Sprintf (env.unmarshalAuthData r1) credentials).2 = o)
    (ho : o ≠ .ret none) :
    loginToForgeRock env fr s credentials =
      (Session.mk (s.history ++ [initialPageRequest fr, initialAuthRequest fr]), o) := by
  unfold loginToForgeRock
  simp only [h0, h1, hf]
  cases o with
  | panic msg => simp
  | ret err =>
    cases err with
    | none => exact absurd rfl ho
    | some e => simp

/-- The loop does not panic when every NameCallback and PasswordCallback has
an input slot. -/
theorem fillLoop_no_panic (credentials : Credentials) :
    ∀ (cbs : List Callback) (u p : Bool),
      (∀ c ∈ cbs, c.Type_ = "NameCallback" ∨ c.Type_ = "PasswordCallback" → c.Input ≠ []) →
      (fillLoop credentials cbs u p).2 ≠ .panicked := by
  intro cbs
  induction cbs with
  | nil => intro u p _; simp [fillLoop]
  | cons cb rest ih =>
    intro u p h
    have hrest : ∀ c ∈ rest,
        c.Type_ = "NameCallback" ∨ c.Type_ = "PasswordCallback" → c.Input ≠ [] :=
      fun c hc => h c (List.mem_cons_of_mem _ hc)
    unfold fillLoop
    split_ifs with hn hpw
    · obtain ⟨x, xs, hx⟩ := List.exists_cons_of_ne_nil (h cb (List.mem_cons_self _ _) (Or.inl hn))
      simp only [hx, setInput0Value]
      exact ih true p hrest
    · obtain ⟨x, xs, hx⟩ := List.exists_cons_of_ne_nil (h cb (List.mem_cons_self _ _) (Or.inr hpw))
      simp only [hx, setInput0Value]
      exact ih u true hrest
    · simp

/-- A flag is set at the end of the loop only if it was set before or a
callback of its type was seen. -/
theorem fillLoop_flags (credentials : Credentials) :
    ∀ (cbs : List Callback) (u p : Bool) (cbs1 : List Callback) (u1 p1 : Bool),
      fillLoop credentials cbs u p = (cbs1, .finished u1 p1) →
      (u1 = true → u = true ∨ ∃ c ∈ cbs, c.Type_ = "NameCallback") ∧
      (p1 = true → p = true ∨ ∃ c ∈ cbs, c.Type_ = "PasswordCallback") := by
  intro cbs
  induction cbs with
  | nil =>
    intro u p cbs1 u1 p1 h
    simp only [fillLoop, Prod.mk.injEq, LoopExit.finished.injEq] at h
    obtain ⟨_, hu, hp⟩ := h
    subst hu hp
    exact ⟨Or.inl, Or.inl⟩
  | cons cb rest ih =>
    intro u p cbs1 u1 p1 h
    unfold fillLoop at h
    split_ifs at h with hn hpw
    · cases hi : setInput0Value cb.Input credentials.Username with
      | none => simp [hi] at h
      | some input =>
        simp only [hi, Prod.mk.injEq] at h
        obtain ⟨hu, hp⟩ := ih true p _ u1 p1 (Prod.ext rfl h.2)
        refine ⟨fun _ => Or.inr ⟨cb, List.mem_cons_self _ _, hn⟩, fun h1 => ?_⟩
        rcases hp h1 with h2 | ⟨c, hc, ht⟩
        · exact Or.inl h2
        · exact Or.inr ⟨c, List.mem_cons_of_mem _ hc, ht⟩
    · cases hi : setInput0Value cb.Input credentials.Password with
      | none => simp [hi] at h
      | some input =>
        simp only [hi, Prod.mk.injEq] at h
        obtain ⟨hu, hp⟩ := ih u true _ u1 p1 (Prod.ext rfl h.2)
        refine ⟨fun h1 => ?_, fun _ => Or.inr ⟨cb, List.mem_cons_self _ _, hpw⟩⟩
        rcases hu h1 with h2 | ⟨c, hc, ht⟩
        · exact Or.inl h2
        · exact Or.inr ⟨c, List.mem_cons_of_mem _ hc, ht⟩
    · simp at h

/-- The loop stops at the first callback of an unrecognized type, when the
callbacks before it all have an input slot. -/
theorem fillLoop_unexpected_type (credentials : Credentials) (cb : Callback)
    (post : List Callback)
    (hn : cb.Type_ ≠ "NameCallback") (hp : cb.Type_ ≠ "PasswordCallback") :
    ∀ (pre : List Callback) (u p : Bool),
      (∀ c ∈ pre, (c.Type_ = "NameCallback" ∨ c.Type_ = "PasswordCallback") ∧ c.Input ≠ []) →
      (fillLoop credentials (pre ++ cb :: post) u p).2
        = .returned ("unexpected auth data callback type: " ++ cb.Type_) := by
  intro pre
  induction pre with
  | nil => intro u p _; simp [fillLoop, hn, hp]
  | cons c rest ih =>
    intro u p h
    have hrest : ∀ c ∈ rest,
        (c.Type_ = "NameCallback" ∨ c.Type_ = "PasswordCallback") ∧ c.Input ≠ [] :=
      fun c hc => h c (List.mem_cons_of_mem _ hc)
    obtain ⟨ht, hi⟩ := h c (List.mem_cons_self _ _)
    obtain ⟨x, xs, hx⟩ := List.exists_cons_of_ne_nil hi
    rw [List.cons_append]
    unfold fillLoop
    split_ifs with h1 h2
    · simp only [hx, setInput0Value]
      exact ih true p hrest
    · simp only [hx, setInput0Value]
      exact ih u true hrest
    · rcases ht with ht | ht
      · exact absurd ht h1
      · exact absurd ht h2

/-- What C1 says of `fillCredentials` holds on every challenge in which the
callbacks before the first unrecognized one have an input slot: the returned
error names the type of that callback. -/
theorem fillCredentials_unexpected_type (Sprintf : String → authData → String)
    (a : authData) (credentials : Credentials) (pre post : List Callback) (cb : Callback)
    (hcb : a.Callbacks = pre ++ cb :: post)
    (hpre : ∀ c ∈ pre,
      (c.Type_ = "NameCallback" ∨ c.Type_ = "PasswordCallback") ∧ c.Input ≠ [])
    (hn : cb.Type_ ≠ "NameCallback") (hp : cb.Type_ ≠ "PasswordCallback") :
    (fillCredentials Sprintf a credentials).2
      = .ret (some ("unexpected auth data callback type: " ++ cb.Type_)) := by
  have h := fillLoop_unexpected_type credentials cb post hn hp pre false false hpre
  unfold fillCredentials
  rw [hcb]
  simp only [h]

/-- What C2 says of `fillCredentials` holds on every challenge in which each
NameCallback and PasswordCallback has an input slot: without a NameCallback,
or without a PasswordCallback, an error is returned. -/
theorem fillCredentials_incomplete_challenge (Sprintf : String → authData → String)
    (a : authData) (credentials : Credentials)
    (hin : ∀ c ∈ a.Callbacks,
      c.Type_ = "NameCallback" ∨ c.Type_ = "PasswordCallback" → c.Input ≠ [])
    (hmiss : (∀ c ∈ a.Callbacks, c.Type_ ≠ "NameCallback") ∨
      (∀ c ∈ a.Callbacks, c.Type_ ≠ "PasswordCallback")) :
    ∃ err, (fillCredentials Sprintf a credentials).2 = .ret (some err) := by
  have hnp := fillLoop_no_panic credentials a.Callbacks false false hin
  unfold fillCredentials
  cases hl : fillLoop credentials a.Callbacks false false with
  | mk cbs1 e =>
    rw [hl] at hnp
    cases e with
    | panicked => exact absurd rfl hnp
    | returned err => exact ⟨err, rfl⟩
    | finished u1 p1 =>
      obtain ⟨hu, hp⟩ := fillLoop_flags credentials _ _ _ _ _ _ hl
      simp only
      cases u1 with
      | false => exact ⟨_, rfl⟩
      | true =>
        cases p1 with
        | false => exact ⟨_, rfl⟩
        | true =>
          exfalso
          rcases hmiss with hm | hm
          · rcases hu rfl with h | ⟨c, hc, ht⟩
            · exact absurd h (by decide)
            · exact hm c hc ht
          · rcases hp rfl with h | ⟨c, hc, ht⟩
            · exact absurd h (by decide)
            · exact hm c hc ht

/-! ## Claims -/

/-- C3: whenever `fillCredentials` succeeds on the challenge `c` received from
the first authenticate POST, the challenge submitted by the second POST is the
receiver `c1` after the call, and `c1` differs from `c` only in first input
values: same `authId`, same number of callbacks, and at every position the
same type, outputs, `_id`, number of inputs, input names and inputs after the
first; the first input value of a NameCallback is the username, that of a
PasswordCallback the password (and every callback is one of the two). -/
theorem fillCredentials_only_first_input_values (env : Env) (fr : Client) (s : Session)
    (credentials : Credentials) (r0 r1 : Response) (c1 : authData)
    (h0 : env.send s.history (initialPageRequest fr) = .ok r0)
    (h1 : env.send (s.history ++ [initialPageRequest fr]) (initialAuthRequest fr) = .ok r1)
    (hf : fillCredentials env.Sprintf (env.unmarshalAuthData r1) credentials
      = (c1, .ret none)) :
    (loginToForgeRock env fr s credentials).1.history =
      s.history ++ [initialPageRequest fr, initialAuthRequest fr,
        Request.mk .POST fr.authUrl createForgeRockHeaders (.json c1)] ∧
    c1.AuthID = (env.unmarshalAuthData r1).AuthID ∧
    c1.Callbacks.length = (env.unmarshalAuthData r1).Callbacks.length ∧
    ∀ (i : Nat) (cb : Callback), (env.unmarshalAuthData r1).Callbacks[i]? = some cb →
      ∃ cb1, c1.Callbacks[i]? = some cb1 ∧
        cb1.Type_ = cb.Type_ ∧ cb1.Output = cb.Output ∧ cb1.ID = cb.ID ∧
        cb1.Input.length = cb.Input.length ∧
        cb1.Input.map NameValue.Name = cb.Input.map NameValue.Name ∧
        cb1.Input.tail = cb.Input.tail ∧
        (cb.Type_ = "NameCallback" ∨ cb.Type_ = "PasswordCallback") ∧
        (cb.Type_ = "NameCallback" →
          cb1.Input.head?.map NameValue.Value = some credentials.Username) ∧
        (cb.Type_ = "PasswordCallback" →
          cb1.Input.head?.map NameValue.Value = some credentials.Password) := by
  obtain ⟨hid, hall⟩ := fillCredentials_success hf
  refine ⟨?_, hid, hall.length_eq.symm, ?_⟩
  · rw [loginToForgeRock_after_fill env fr s credentials r0 r1 c1 h0 h1 hf]
    simp [loginRequest]
  · intro i cb hi
    obtain ⟨cb1, hcb1, ht, ho, hidd, hcase⟩ := forall₂_getElem? hall i cb hi
    refine ⟨cb1, hcb1, ht, ho, hidd, ?_⟩
    rcases hcase with ⟨hn, hset⟩ | ⟨hp, hset⟩
    · obtain ⟨hl, hnames, htail, hhead⟩ := setInput0Value_some hset
      refine ⟨hl, hnames, htail, Or.inl hn, fun _ => hhead, ?_⟩
      intro hp
      rw [hn] at hp
      exact absurd hp (by decide)
    · obtain ⟨hl, hnames, htail, hhead⟩ := setInput0Value_some hset
      refine ⟨hl, hnames, htail, Or.inr hp, ?_, fun _ => hhead⟩
      intro hn
      rw [hp] at hn
      exact absurd hn (by decide)

/-- Witness of C3: on the scripted backend the submitted challenge is
`demoFilled`, and the name input holds the username. -/
theorem fillCredentials_only_first_input_values_witness :
    fillCredentials demoEnv.Sprintf demoChallenge demoCredentials
      = (demoFilled, .ret none) ∧
    (loginToForgeRock demoEnv demoClient (Session.mk []) demoCredentials).1.history =
      [initialPageRequest demoClient, initialAuthRequest demoClient,
        Request.mk .POST demoClient.authUrl createForgeRockHeaders (.json demoFilled)] ∧
    demoFilled.Callbacks.length = demoChallenge.Callbacks.length :=
  have h := fillCredentials_only_first_input_values demoEnv demoClient (Session.mk [])
    demoCredentials (Response.mk 200 "<html>login</html>") (Response.mk 200 "challenge")
    demoFilled rfl rfl (by decide)
  ⟨by decide, h.1, h.2.2.1⟩

/-- C4: with an empty username or an empty password, `Login` returns a nil
session and an error, and has issued no HTTP request. -/
theorem Login_missing_credentials (env : Env) (fr : Client) (appUrl : String)
    (credentials : Credentials)
    (h : credentials.Username = "" ∨ credentials.Password = "") :
    (Login env fr appUrl credentials).result
      = .ret (none, some "missing username or password for ForgeRock login") ∧
    (Login env fr appUrl credentials).trace = [] := by
  unfold Login
  rcases h with h | h <;> simp [h]

/-- Witness of C4: an empty password on the backend on which a login with
credentials goes through. -/
theorem Login_missing_credentials_witness :
    (Login demoEnv demoClient "https://app.example.com" (Credentials.mk "alice" "")).result
      = .ret (none, some "missing username or password for ForgeRock login") ∧
    (Login demoEnv demoClient "https://app.example.com" (Credentials.mk "alice" "")).trace
      = [] :=
  Login_missing_credentials demoEnv demoClient "https://app.example.com"
    (Credentials.mk "alice" "") (Or.inr rfl)

/-- C5: when the response to the resubmitted challenge has a status of 400 or
more, or decodes to a login response with an empty `tokenId`, `Login` returns
a nil session and an error; the requests it issued are exactly the three of
`loginToForgeRock` (`loginToApp` issues none), so none of them goes to
`appUrl`, unless `appUrl` is the base URL or the authentication URL itself. -/
theorem Login_rejected_never_calls_app (env : Env) (fr : Client) (appUrl : String)
    (credentials : Credentials) (r0 r1 r2 : Response) (c1 : authData)
    (hu : credentials.Username ≠ "") (hp : credentials.Password ≠ "")
    (h0 : env.send [] (initialPageRequest fr) = .ok r0)
    (h1 : env.send [initialPageRequest fr] (initialAuthRequest fr) = .ok r1)
    (hf : fillCredentials env.Sprintf (env.unmarshalAuthData r1) credentials
      = (c1, .ret none))
    (h2 : env.send [initialPageRequest fr, initialAuthRequest fr] (loginRequest fr c1)
      = .ok r2)
    (hbad : r2.status ≥ 400 ∨ (env.unmarshalLoginResponse r2).TokenID = "") :
    (Login env fr appUrl credentials).result
      = .ret (none, some (if r2.status ≥ 400 then "error response from login: " ++ r2.body
          else "failed to login, tokenId is empty: " ++ r2.body)) ∧
    (Login env fr appUrl credentials).trace
      = [initialPageRequest fr, initialAuthRequest fr, loginRequest fr c1] ∧
    (appUrl ≠ fr.baseUrl → appUrl ≠ fr.authUrl →
      ∀ r ∈ (Login env fr appUrl credentials).trace, r.url ≠ appUrl) := by
  have hl := loginToForgeRock_after_fill env fr (Session.mk []) credentials r0 r1 c1
    h0 h1 hf
  simp only [List.nil_append, List.singleton_append, List.cons_append, h2] at hl
  have hres : (Login env fr appUrl credentials).result
      = .ret (none, some (if r2.status ≥ 400 then "error response from login: " ++ r2.body
          else "failed to login, tokenId is empty: " ++ r2.body)) ∧
    (Login env fr appUrl credentials).trace
      = [initialPageRequest fr, initialAuthRequest fr, loginRequest fr c1] := by
    unfold Login
    simp only [hu, hp, decide_False, Bool.or_self, Bool.false_eq_true, if_false, hl]
    by_cases hs : r2.status ≥ 400
    · simp [hs]
    · have ht : (env.unmarshalLoginResponse r2).TokenID = "" := by
        rcases hbad with hb | hb
        · exact absurd hb hs
        · exact hb
      simp [hs, ht]
  refine ⟨hres.1, hres.2, ?_⟩
  intro hb ha r hr
  rw [hres.2] at hr
  simp only [List.mem_cons, List.mem_singleton, List.not_mem_nil, or_false] at hr
  rcases hr with hr | hr | hr <;> subst hr
  · exact fun h => hb h.symm
  · exact fun h => ha h.symm
  · exact fun h => ha h.symm

/-- Witness of C5: the backend answers the resubmission with 401; `Login`
fails after three requests and none goes to the application. -/
theorem Login_rejected_never_calls_app_witness :
    (Login rejectingEnv demoClient "https://app.example.com" demoCredentials).result
      = .ret (none, some "error response from login: unauthorized") ∧
    (Login rejectingEnv demoClient "https://app.example.com" demoCredentials).trace
      = [initialPageRequest demoClient, initialAuthRequest demoClient,
          loginRequest demoClient demoFilled] ∧
    ∀ r ∈ (Login rejectingEnv demoClient "https://app.example.com" demoCredentials).trace,
      r.url ≠ "https://app.example.com" :=
  have h := Login_rejected_never_calls_app rejectingEnv demoClient "https://app.example.com"
    demoCredentials (Response.mk 200 "<html>login</html>") (Response.mk 200 "challenge")
    (Response.mk 401 "unauthorized") demoFilled (by decide) (by decide) rfl rfl
    (by decide) rfl (Or.inl (by decide))
  ⟨h.1, h.2.1, h.2.2 (by decide) (by decide)⟩

/-- C6: when the application entry response (status below 400, carrying the
marker) yields the redirect data `data`, the request `loginToApp` issues next
is a POST to `data.action` whose form has exactly the two keys `SAMLResponse`
and `RelayState`, holding `data.samlResponse` and `data.relayState`. -/
theorem loginToApp_posts_saml_form (env : Env) (s : Session) (appUrl : String)
    (resp : Response) (data : ssoRedirectData)
    (h0 : env.send s.history (appRequest appUrl) = .ok resp)
    (hs : resp.status < 400)
    (hm : stringsContains resp.body "SAMLResponse" = true)
    (hd : parseSsoRedirectData env.soup resp.body = some data) :
    ∃ req kv, (loginToApp env s appUrl).1.history = s.history ++ [appRequest appUrl, req] ∧
      req.method = .POST ∧ req.url = data.action ∧ req.body = .form kv ∧
      kv.map Prod.fst = ["SAMLResponse", "RelayState"] ∧
      mapIndex kv "SAMLResponse" = data.samlResponse ∧
      mapIndex kv "RelayState" = data.relayState := by
  refine ⟨samlRequest data, data.toFormData, ?_, rfl, rfl, rfl, rfl, ?_, ?_⟩
  · rw [loginToApp_after_parse env s appUrl resp data h0 hs hm hd]
    simp
  · simp [ssoRedirectData.toFormData, mapIndex, List.lookup]
  · simp [ssoRedirectData.toFormData, mapIndex, List.lookup]

/-- Witness of C6: the scripted application; the second request is the POST
of the form to the assertion consumer URL. -/
theorem loginToApp_posts_saml_form_witness :
    parseSsoRedirectData appEnv.soup demoPageBody = some demoPage ∧
    ∃ req kv, (loginToApp appEnv (Session.mk []) "https://app.example.com").1.history
        = [] ++ [appRequest "https://app.example.com", req] ∧
      req.method = .POST ∧ req.url = "https://app.example.com/saml/acs" ∧
      req.body = .form kv ∧
      kv.map Prod.fst = ["SAMLResponse", "RelayState"] ∧
      mapIndex kv "SAMLResponse" = "PHNhbWxwOlJlc3BvbnNl" ∧
      mapIndex kv "RelayState" = "relay-1" :=
  ⟨by decide,
    loginToApp_posts_saml_form appEnv (Session.mk []) "https://app.example.com"
      (Response.mk 200 demoPageBody) demoPage rfl (by decide) (by decide) (by decide)⟩

/-- C8, as stated, fails: the entry page answers 200 and carries the marker,
the extracted `SAMLResponse` is empty, and `loginToApp` still POSTs the form
to the extracted action and returns nil. -/
theorem loginToApp_posts_empty_saml_response :
    emptySamlEnv.send [] (appRequest "https://app.example.com")
      = .ok (Response.mk 200 demoPageBody) ∧
    stringsContains demoPageBody "SAMLResponse" = true ∧
    parseSsoRedirectData emptySamlEnv.soup demoPageBody
      = some (ssoRedirectData.mk "https://app.example.com/saml/acs" "" "relay-1") ∧
    loginToApp emptySamlEnv (Session.mk []) "https://app.example.com"
      = (Session.mk [appRequest "https://app.example.com",
            Request.mk .POST "https://app.example.com/saml/acs" []
              (.form [("SAMLResponse", ""), ("RelayState", "relay-1")])],
          .ret none) :=
  ⟨rfl, by decide, by decide, by decide⟩

/-- C8, amended: for an application entry response (status below 400,
carrying the marker) that yields redirect data with an empty action or an
empty SAMLResponse. With an empty action, `loginToApp` hands the empty URL to
the HTTP client; the client refuses it with an error, and `loginToApp`
returns the error "failed to post saml response": the refused call is the
only call of `Post`, so no POST goes to any assertion consumer endpoint. With
a non-empty action and an empty SAMLResponse, `loginToApp` does not reject
the response: it POSTs the form, with the empty SAMLResponse, to the
extracted action, and it returns an error only when that POST fails with a
transport error or is answered with a status of 400 or more. -/
theorem loginToApp_empty_redirect_fields (env : Env) (s : Session) (appUrl : String)
    (resp : Response) (data : ssoRedirectData) (e : String)
    (h0 : env.send s.history (appRequest appUrl) = .ok resp)
    (hs : resp.status < 400)
    (hm : stringsContains resp.body "SAMLResponse" = true)
    (hd : parseSsoRedirectData env.soup resp.body = some data)
    (hempty : data.action = "" ∨ data.samlResponse = "")
    (hrefuse : data.action = "" →
      env.send (s.history ++ [appRequest appUrl]) (samlRequest data) = .error e) :
    (data.action = "" →
      (loginToApp env s appUrl).2 = .ret (some ("failed to post saml response: " ++ e)) ∧
      (loginToApp env s appUrl).1.history
        = s.history ++ [appRequest appUrl,
            Request.mk .POST "" []
              (.form [("SAMLResponse", data.samlResponse),
                ("RelayState", data.relayState)])]) ∧
    (data.action ≠ "" →
      (loginToApp env s appUrl).1.history
        = s.history ++ [appRequest appUrl,
            Request.mk .POST data.action []
              (.form [("SAMLResponse", ""), ("RelayState", data.relayState)])] ∧
      (loginToApp env s appUrl).2 =
        match env.send (s.history ++ [appRequest appUrl]) (samlRequest data) with
        | .error e2 => .ret (some ("failed to post saml response: " ++ e2))
        | .ok resp2 =>
          if resp2.status ≥ 400 then
            .ret (some ("error response from posting saml response: " ++ resp2.body))
          else .ret none) := by
  rw [loginToApp_after_parse env s appUrl resp data h0 hs hm hd]
  refine ⟨fun ha => ?_, fun ha => ?_⟩
  · rw [hrefuse ha]
    refine ⟨rfl, ?_⟩
    simp [samlRequest, ssoRedirectData.toFormData, ha]
  · have hsaml : data.samlResponse = "" := by
      rcases hempty with h | h
      · exact absurd h ha
      · exact h
    refine ⟨?_, rfl⟩
    simp [samlRequest, ssoRedirectData.toFormData, hsaml]

/-- Witness of C8, amended, at both kinds of input. The application with an
empty `SAMLResponse`: the form is posted to the action and `loginToApp`
returns nil. The application with an empty `action`: the client refuses the
empty URL and `loginToApp` returns the error. -/
theorem loginToApp_empty_redirect_fields_witness :
    ((loginToApp emptySamlEnv (Session.mk []) "https://app.example.com").1.history
        = [] ++ [appRequest "https://app.example.com",
            Request.mk .POST emptySamlPage.action []
              (.form [("SAMLResponse", ""), ("RelayState", emptySamlPage.relayState)])] ∧
      (loginToApp emptySamlEnv (Session.mk []) "https://app.example.com").2 = .ret none) ∧
    ((loginToApp emptyActionEnv (Session.mk []) "https://app.example.com").2
        = .ret (some ("failed to post saml response: " ++ "unsupported protocol scheme")) ∧
      (loginToApp emptyActionEnv (Session.mk []) "https://app.example.com").1.history
        = [] ++ [appRequest "https://app.example.com",
            Request.mk .POST "" []
              (.form [("SAMLResponse", emptyActionPage.samlResponse),
                ("RelayState", emptyActionPage.relayState)])]) :=
  ⟨(loginToApp_empty_redirect_fields emptySamlEnv (Session.mk [])
      "https://app.example.com" (Response.mk 200 demoPageBody) emptySamlPage "" rfl
      (by decide) (by decide) (by decide) (Or.inr rfl)
      (fun h => absurd h (by decide))).2 (by decide),
   (loginToApp_empty_redirect_fields emptyActionEnv (Session.mk [])
      "https://app.example.com" (Response.mk 200 demoPageBody) emptyActionPage
      "unsupported protocol scheme" rfl (by decide) (by decide) (by decide) (Or.inl rfl)
      (fun _ => rfl)).1 rfl⟩

/-- C7, as stated, fails: the backend meets every condition of the claim (the
first authenticate POST is answered with a NameCallback and a
PasswordCallback with one input each, the resubmission with 200 and a token,
the application page with 200 and a full SAML form, the final POST with 200)
and `Login` succeeds, but it has issued five requests, not four: the GET of
the base page comes first. -/
theorem Login_issues_five_requests :
    demoEnv.unmarshalAuthData (Response.mk 200 "challenge") = demoChallenge ∧
    (demoEnv.unmarshalLoginResponse (Response.mk 200 "token")).TokenID ≠ "" ∧
    parseSsoRedirectData demoEnv.soup demoPageBody = some demoPage ∧
    (Login demoEnv demoClient "https://app.example.com" demoCredentials).trace
      = [Request.mk .GET "https://idp.example.com" [] .empty,
         Request.mk .POST "https://idp.example.com/json/realms/root/authenticate"
           createForgeRockHeaders .empty,
         Request.mk .POST "https://idp.example.com/json/realms/root/authenticate"
           createForgeRockHeaders (.json demoFilled),
         Request.mk .GET "https://app.example.com" [] .empty,
         Request.mk .POST "https://app.example.com/saml/acs" []
           (.form [("SAMLResponse", "PHNhbWxwOlJlc3BvbnNl"), ("RelayState", "relay-1")])] ∧
    (∃ session, (Login demoEnv demoClient "https://app.example.com" demoCredentials).result
      = .ret (some session, none)) ∧
    (Login demoEnv demoClient "https://app.example.com" demoCredentials).trace.length ≠ 4 :=
  ⟨by decide, by decide, by decide, by decide, ⟨_, rfl⟩, by decide⟩

/-- C7, amended: on a backend that answers the GET of the base page, answers
the first authenticate POST with a challenge of one NameCallback and one
PasswordCallback (each with an input slot), the resubmission with a status
below 400 and a non-empty `tokenId`, the GET of `appUrl` with a status below
400 and a SAML form, and the final POST with a status below 400, `Login` with
non-empty credentials returns a session and a nil error, and has issued
exactly five requests: GET base URL, POST authenticate without body, POST
authenticate with the filled challenge, GET `appUrl`, POST of the form to the
extracted action. -/
theorem Login_success_five_requests (env : Env) (fr : Client) (appUrl : String)
    (credentials : Credentials) (r0 r1 r2 r3 r4 : Response) (cbA cbB : Callback)
    (data : ssoRedirectData)
    (hu : credentials.Username ≠ "") (hp : credentials.Password ≠ "")
    (h0 : env.send [] (initialPageRequest fr) = .ok r0)
    (h1 : env.send [initialPageRequest fr] (initialAuthRequest fr) = .ok r1)
    (hcb : (env.unmarshalAuthData r1).Callbacks = [cbA, cbB])
    (ht : (cbA.Type_ = "NameCallback" ∧ cbB.Type_ = "PasswordCallback") ∨
      (cbA.Type_ = "PasswordCallback" ∧ cbB.Type_ = "NameCallback"))
    (hA : cbA.Input ≠ []) (hB : cbB.Input ≠ [])
    (h2 : env.send [initialPageRequest fr, initialAuthRequest fr]
        (loginRequest fr
          (fillCredentials env.Sprintf (env.unmarshalAuthData r1) credentials).1)
      = .ok r2)
    (hs2 : r2.status < 400) (htok : (env.unmarshalLoginResponse r2).TokenID ≠ "")
    (h3 : env.send [initialPageRequest fr, initialAuthRequest fr,
          loginRequest fr
            (fillCredentials env.Sprintf (env.unmarshalAuthData r1) credentials).1]
        (appRequest appUrl)
      = .ok r3)
    (hs3 : r3.status < 400)
    (hm : stringsContains r3.body "SAMLResponse" = true)
    (hd : parseSsoRedirectData env.soup r3.body = some data)
    (h4 : env.send [initialPageRequest fr, initialAuthRequest fr,
          loginRequest fr
            (fillCredentials env.Sprintf (env.unmarshalAuthData r1) credentials).1,
          appRequest appUrl]
        (samlRequest data)
      = .ok r4)
    (hs4 : r4.status < 400) :
    (Login env fr appUrl credentials).trace
      = [Request.mk .GET fr.baseUrl [] .empty,
         Request.mk .POST fr.authUrl createForgeRockHeaders .empty,
         Request.mk .POST fr.authUrl createForgeRockHeaders
           (.json (fillCredentials env.Sprintf (env.unmarshalAuthData r1) credentials).1),
         Request.mk .GET appUrl [] .empty,
         Request.mk .POST data.action []
           (.form [("SAMLResponse", data.samlResponse), ("RelayState", data.relayState)])] ∧
    (Login env fr appUrl credentials).result
      = .ret (some (Session.mk (Login env fr appUrl credentials).trace), none) ∧
    (Login env fr appUrl credentials).trace.length = 5 := by
  have hfill : fillCredentials env.Sprintf (env.unmarshalAuthData r1) credentials
      = ((fillCredentials env.Sprintf (env.unmarshalAuthData r1) credentials).1, .ret none) :=
    Prod.ext rfl
      (fillCredentials_two_callbacks env.Sprintf _ credentials cbA cbB hcb ht hA hB)
  have hl := loginToForgeRock_after_fill env fr (Session.mk []) credentials r0 r1 _
    h0 h1 hfill
  have hs2n : ¬ r2.status ≥ 400 := Nat.not_le.mpr hs2
  simp only [List.nil_append, List.singleton_append, List.cons_append, h2, hs2n, if_false,
    htok] at hl
  have ha := loginToApp_after_parse env _ appUrl r3 data h3 hs3 hm hd
  have hs4n : ¬ r4.status ≥ 400 := Nat.not_le.mpr hs4
  simp only [List.singleton_append, List.cons_append, List.nil_append, h4, hs4n,
    if_false] at ha
  have hrun : Login env fr appUrl credentials
      = LoginRun.mk
          [initialPageRequest fr, initialAuthRequest fr,
            loginRequest fr
              (fillCredentials env.Sprintf (env.unmarshalAuthData r1) credentials).1,
            appRequest appUrl, samlRequest data]
          (.ret (some (Session.mk
            [initialPageRequest fr, initialAuthRequest fr,
              loginRequest fr
                (fillCredentials env.Sprintf (env.unmarshalAuthData r1) credentials).1,
              appRequest appUrl, samlRequest data]), none)) := by
    unfold Login
    simp only [hu, hp, decide_False, Bool.or_self, Bool.false_eq_true, if_false, hl, ha]
  rw [hrun]
  exact ⟨rfl, rfl, rfl⟩

/-- Witness of C7, amended: the scripted backend; `Login` returns a session
after five requests. -/
theorem Login_success_five_requests_witness :
    (Login demoEnv demoClient "https://app.example.com" demoCredentials).result
      = .ret (some (Session.mk
          (Login demoEnv demoClient "https://app.example.com" demoCredentials).trace), none) ∧
    (Login demoEnv demoClient "https://app.example.com" demoCredentials).trace.length = 5 :=
  (Login_success_five_requests demoEnv demoClient "https://app.example.com" demoCredentials
    (Response.mk 200 "<html>login</html>") (Response.mk 200 "challenge")
    (Response.mk 200 "token") (Response.mk 200 demoPageBody)
    (Response.mk 200 "<html>welcome</html>")
    (Callback.mk "NameCallback" [NameValue.mk "prompt" "User Name"]
       [NameValue.mk "IDToken1" ""] 0)
    (Callback.mk "PasswordCallback" [NameValue.mk "prompt" "Password"]
       [NameValue.mk "IDToken2" ""] 1)
    demoPage (by decide) (by decide) rfl rfl rfl (Or.inl ⟨rfl, rfl⟩) (by decide) (by decide)
    rfl (by decide) (by decide) rfl (by decide) (by decide) (by decide) rfl
    (by decide)).2

/-- C9, as stated, fails for an HTTP error status: the GET of the base page
is answered with status 500, and `loginToForgeRock` goes on to POST to the
authentication endpoint twice and returns nil. -/
theorem loginToForgeRock_ignores_initial_status :
    brokenPageEnv.send [] (initialPageRequest demoClient)
      = .ok (Response.mk 500 "internal server error") ∧
    (Response.mk 500 "internal server error").status ≥ 400 ∧
    loginToForgeRock brokenPageEnv demoClient (Session.mk []) demoCredentials
      = (Session.mk [initialPageRequest demoClient, initialAuthRequest demoClient,
            loginRequest demoClient demoFilled],
          .ret none) ∧
    (initialAuthRequest demoClient).method = .POST ∧
    (initialAuthRequest demoClient).url = demoClient.authUrl :=
  ⟨rfl, by decide, by decide, rfl, rfl⟩

/-- C9, amended: when the initial GET of the base URL fails with a transport
error, `loginToForgeRock` returns the error "failed to get initial login
page" naming the base URL and the cause, and the GET is the only request it
has issued: no POST to the authentication endpoint. -/
theorem loginToForgeRock_initial_page_unreachable (env : Env) (fr : Client) (s : Session)
    (credentials : Credentials) (e : String)
    (h0 : env.send s.history (initialPageRequest fr) = .error e) :
    (loginToForgeRock env fr s credentials).2
      = .ret (some ("failed to get initial login page \"" ++ fr.baseUrl ++ "\": " ++ e)) ∧
    (loginToForgeRock env fr s credentials).1.history
      = s.history ++ [Request.mk .GET fr.baseUrl [] .empty] := by
  have h : loginToForgeRock env fr s credentials
      = (Session.mk (s.history ++ [initialPageRequest fr]),
          .ret (some ("failed to get initial login page \"" ++ fr.baseUrl ++ "\": " ++ e))) := by
    unfold loginToForgeRock
    simp only [h0]
  rw [h]
  exact ⟨rfl, rfl⟩

/-- Witness of C9, amended: the backend that cannot be reached. -/
theorem loginToForgeRock_initial_page_unreachable_witness :
    (loginToForgeRock unreachableEnv demoClient (Session.mk []) demoCredentials).2
      = .ret (some ("failed to get initial login page \"" ++ demoClient.baseUrl ++ "\": "
          ++ "connection refused")) ∧
    (loginToForgeRock unreachableEnv demoClient (Session.mk []) demoCredentials).1.history
      = [] ++ [Request.mk .GET demoClient.baseUrl [] .empty] :=
  loginToForgeRock_initial_page_unreachable unreachableEnv demoClient (Session.mk [])
    demoCredentials "connection refused" rfl

/-- C10: the code at the failing input. On a challenge whose NameCallback has
an empty input list, `fillCredentials` does not return: the write to
`Input[0]` is out of range and the call panics, for every credentials value. -/
theorem fillCredentials_empty_input_panics (Sprintf : String → authData → String)
    (credentials : Credentials) :
    (fillCredentials Sprintf noInputChallenge credentials).2
      = .panic "runtime error: index out of range [0] with length 0" ∧
    ∀ err, (fillCredentials Sprintf noInputChallenge credentials).2 ≠ .ret err := by
  have h : (fillCredentials Sprintf noInputChallenge credentials).2
      = .panic "runtime error: index out of range [0] with length 0" := by
    simp [fillCredentials, fillLoop, noInputChallenge, setInput0Value]
  refine ⟨h, ?_⟩
  intro err
  rw [h]
  exact fun hc => Outcome.noConfusion hc

/-- C1: the code at the failing input. The challenge holds a callback of the
unrecognized type `ChoiceCallback`, after a NameCallback with an empty input
list: `fillCredentials` panics at the NameCallback and returns no error
naming `ChoiceCallback`; `loginToForgeRock` panics with it after two requests. -/
theorem fillCredentials_panics_before_unexpected_type
    (Sprintf : String → authData → String) (credentials : Credentials) :
    (fillCredentials Sprintf noInputThenChoiceChallenge credentials).2
      = .panic "runtime error: index out of range [0] with length 0" ∧
    (fillCredentials Sprintf noInputThenChoiceChallenge credentials).2
      ≠ .ret (some "unexpected auth data callback type: ChoiceCallback") ∧
    loginToForgeRock (scriptedEnv challengeScript noInputThenChoiceChallenge demoPage)
        demoClient (Session.mk []) credentials
      = (Session.mk [initialPageRequest demoClient, initialAuthRequest demoClient],
          .panic "runtime error: index out of range [0] with length 0") := by
  have h : ∀ S : String → authData → String,
      (fillCredentials S noInputThenChoiceChallenge credentials).2
        = .panic "runtime error: index out of range [0] with length 0" := by
    intro S
    simp [fillCredentials, fillLoop, noInputThenChoiceChallenge, setInput0Value]
  refine ⟨h Sprintf, ?_, ?_⟩
  · rw [h]
    exact fun hc => Outcome.noConfusion hc
  · exact loginToForgeRock_fill_fails _ demoClient (Session.mk []) credentials
      (Response.mk 200 "<html>login</html>") (Response.mk 200 "challenge") _ rfl rfl
      (h _) (fun hc => Outcome.noConfusion hc)

/-- C2: the code at the failing input. The challenge holds no NameCallback,
and its PasswordCallback has an empty input list: `fillCredentials` panics
and returns no error; `loginToForgeRock` panics with it after two requests. -/
theorem fillCredentials_panics_on_incomplete_challenge
    (Sprintf : String → authData → String) (credentials : Credentials) :
    (∀ cb ∈ passwordOnlyNoInputChallenge.Callbacks, cb.Type_ ≠ "NameCallback") ∧
    (fillCredentials Sprintf passwordOnlyNoInputChallenge credentials).2
      = .panic "runtime error: index out of range [0] with length 0" ∧
    (∀ err, (fillCredentials Sprintf passwordOnlyNoInputChallenge credentials).2
      ≠ .ret (some err)) ∧
    loginToForgeRock (scriptedEnv challengeScript passwordOnlyNoInputChallenge demoPage)
        demoClient (Session.mk []) credentials
      = (Session.mk [initialPageRequest demoClient, initialAuthRequest demoClient],
          .panic "runtime error: index out of range [0] with length 0") := by
  have h : ∀ S : String → authData → String,
      (fillCredentials S passwordOnlyNoInputChallenge credentials).2
        = .panic "runtime error: index out of range [0] with length 0" := by
    intro S
    simp [fillCredentials, fillLoop, passwordOnlyNoInputChallenge, setInput0Value]
  refine ⟨by decide, h Sprintf, ?_, ?_⟩
  · intro err
    rw [h]
    exact fun hc => Outcome.noConfusion hc
  · exact loginToForgeRock_fill_fails _ demoClient (Session.mk []) credentials
      (Response.mk 200 "<html>login</html>") (Response.mk 200 "challenge") _ rfl rfl
      (h _) (fun hc => Outcome.noConfusion hc)

end forgerock
